import Mathlib

/-!
Verification development for the Douro hosting-infrastructure probe.

The development shallowly embeds the core modules of the repository:
`douro/core/region_detector.py` (hosting region detection engine),
`douro/core/analyzer.py` (domain analysis pipeline) and
`douro/core/metrics.py` (metric projection).

Python strings are modelled as `List Char` and every string operation used
by the source (substring membership, prefix tests, lower-casing, splitting,
stripping, `re` pattern search on the restricted pattern language the source
uses) is defined here by structural recursion so that all definitions are
executable and kernel-reducible.  External effects (DNS answers, WHOIS
lookups, subprocess outputs, reverse DNS) are passed in as explicit
parameters; a `none`/`failed` value models the corresponding Python
exception, mirroring exactly the `try`/`except` structure of the source.
-/

namespace Douro

/-- Python strings are modelled as lists of characters. -/
abbrev Str := List Char

/-- Characters treated as whitespace by Python's `str.strip` and `\s` (ASCII). -/
def pyIsSpace (c : Char) : Bool :=
  c = ' ' ∨ c = '\t' ∨ c = '\n' ∨ c = '\r' ∨ c = '\x0b' ∨ c = '\x0c'

/-- Worker for `startsWithL`, recursing on the pattern so that an
exhausted pattern reduces even when the rest of the scanned string is
unknown. -/
def startsWithAux : Str → Str → Bool
  | [], _ => true
  | _ :: _, [] => false
  | pc :: ps, c :: cs => (c == pc) && startsWithAux ps cs

/-- Test whether `s` starts with `p` (Python `str.startswith`). -/
def startsWithL (s p : Str) : Bool := startsWithAux p s

/-- Test whether `needle` occurs as a contiguous substring of `hay`
(Python's `needle in hay`). -/
def occursIn (needle hay : Str) : Bool :=
  hay.tails.any (fun t => startsWithL t needle)

/-- ASCII lower-casing of one character (Python `str.lower` on the
character sets the source manipulates). -/
def pyLowerChar (c : Char) : Char :=
  if 'A' ≤ c ∧ c ≤ 'Z' then Char.ofNat (c.toNat + 32) else c

/-- Python `str.lower`. -/
def pyLower (s : Str) : Str := s.map pyLowerChar

/-- Python `str.split(sep)` for a one-character separator. -/
def splitOnCharL (sep : Char) : Str → List Str
  | [] => [[]]
  | c :: cs =>
    let r := splitOnCharL sep cs
    if c == sep then [] :: r
    else match r with
      | [] => [[c]]
      | g :: gs => (c :: g) :: gs

/-- Python `str.strip()` (whitespace from both ends). -/
def pyStrip (s : Str) : Str :=
  ((s.dropWhile pyIsSpace).reverse.dropWhile pyIsSpace).reverse

/-- Python `str.rstrip('.')`. -/
def pyRstripDot (s : Str) : Str :=
  (s.reverse.dropWhile (fun c => c = '.')).reverse

/-- Hexadecimal digit test (ASCII). -/
def isHexDigitL (c : Char) : Bool :=
  c.isDigit ∨ ('a' ≤ c ∧ c ≤ 'f') ∨ ('A' ≤ c ∧ c ≤ 'F')

/-- Value of a hexadecimal digit. -/
def hexVal (c : Char) : Nat :=
  if c.isDigit then c.toNat - '0'.toNat
  else if 'a' ≤ c ∧ c ≤ 'f' then c.toNat - 'a'.toNat + 10
  else c.toNat - 'A'.toNat + 10

/-- Python `int(s, 16)` on the plain hex-digit strings the source feeds it:
`some` of the value when `s` is a non-empty all-hex string, `none`
(`ValueError`) otherwise. -/
def pyHexParse (s : Str) : Option Nat :=
  if s ≠ [] ∧ s.all isHexDigitL then
    some (s.foldl (fun acc c => acc * 16 + hexVal c) 0)
  else none

/-- Python `int(s)` on the plain digit strings the source feeds it:
`some` of the value when `s` is a non-empty all-decimal string, `none`
(`ValueError`) otherwise. -/
def pyIntParse (s : Str) : Option Nat :=
  if s ≠ [] ∧ s.all Char.isDigit then
    some (s.foldl (fun acc c => acc * 10 + (c.toNat - '0'.toNat)) 0)
  else none

/-- Lowercase ASCII letter test (the `[a-z]` character class). -/
def isLowerAlpha (c : Char) : Bool := 'a' ≤ c ∧ c ≤ 'z'

/-! ### A matcher for the restricted regular-expression language of the source

Every pattern in `region_patterns` is built from literal characters, the
escapes `\d` `\.` `\-` `\|`, the wildcard `.` and the postfix quantifiers
`*` and `+`.  We compile such a pattern to a token list and give the
standard unanchored-search semantics of `re.search` (as a Boolean). -/

/-- One regular-expression atom. -/
inductive RAtom
  | lit (c : Char)
  | anyc
  | digit
deriving DecidableEq

/-- Postfix quantifier on an atom. -/
inductive RQuant
  | one
  | star
  | plus
deriving DecidableEq

/-- A compiled pattern token. -/
abbrev RTok := RAtom × RQuant

/-- Parse one atom from the front of a pattern. -/
def parseAtom : Str → Option (RAtom × Str)
  | '\\' :: 'd' :: r => some (.digit, r)
  | '\\' :: '.' :: r => some (.lit '.', r)
  | '\\' :: '-' :: r => some (.lit '-', r)
  | '\\' :: '|' :: r => some (.lit '|', r)
  | '\\' :: _ => none
  | '.' :: r => some (.anyc, r)
  | '*' :: _ => none
  | '+' :: _ => none
  | '[' :: _ => none
  | '(' :: _ => none
  | ')' :: _ => none
  | '?' :: _ => none
  | c :: r => some (.lit c, r)
  | [] => none

/-- Compile a pattern (with fuel; `parseAtom` always consumes at least one
character, so `fuel = length` suffices). -/
def compileAux : Nat → Str → Option (List RTok)
  | _, [] => some []
  | 0, _ :: _ => none
  | fuel + 1, s =>
    match parseAtom s with
    | none => none
    | some (a, rest) =>
      match rest with
      | '*' :: r => (compileAux fuel r).map (fun ts => (a, RQuant.star) :: ts)
      | '+' :: r => (compileAux fuel r).map (fun ts => (a, RQuant.plus) :: ts)
      | r => (compileAux fuel r).map (fun ts => (a, RQuant.one) :: ts)

/-- Compile a pattern string to tokens; `none` when the pattern uses a
construct outside the restricted language. -/
def compileRegex (s : Str) : Option (List RTok) := compileAux s.length s

/-- Does atom `a` match character `c`? -/
def atomMatch : RAtom → Char → Bool
  | .lit c, x => x == c
  | .anyc, _ => true
  | .digit, x => x.isDigit

/-- Match a token list against a prefix of `cs` (the match may end
anywhere), with explicit fuel so the function is structural and
kernel-reducible; every step consumes a character or retires a token, so
`ts.length + cs.length + 1` fuel always suffices. -/
def matchFuel : Nat → List RTok → Str → Bool
  | 0, _, _ => false
  | _ + 1, [], _ => true
  | _ + 1, (_, .one) :: _, [] => false
  | f + 1, (a, .one) :: ts, c :: cs => atomMatch a c && matchFuel f ts cs
  | _ + 1, (_, .plus) :: _, [] => false
  | f + 1, (a, .plus) :: ts, c :: cs =>
    atomMatch a c && matchFuel f ((a, .star) :: ts) cs
  | f + 1, (_, .star) :: ts, [] => matchFuel f ts []
  | f + 1, (a, .star) :: ts, c :: cs =>
    matchFuel f ts (c :: cs) || (atomMatch a c && matchFuel f ((a, .star) :: ts) cs)

/-- Match a token list at the start of `cs` (the match may end anywhere). -/
def matchToks (ts : List RTok) (cs : Str) : Bool :=
  matchFuel (ts.length + cs.length + 1) ts cs

/-- Unanchored Boolean search, the semantics of `re.search(pattern, s)`. -/
def reSearch (ts : List RTok) (s : Str) : Bool :=
  s.tails.any (fun t => matchToks ts t)

/-- Search with on-the-fly compilation of the pattern. -/
def reSearchPat (pat : String) (s : Str) : Bool :=
  match compileRegex pat.data with
  | some ts => reSearch ts s
  | none => false

/-! ### The Pattern Store of `RegionDetector.__init__`

`region_patterns` and `country_to_region_mapping` are transcribed verbatim
from `douro/core/region_detector.py`; Python dictionaries keep insertion
order, so association lists in declared order are a faithful model. -/

/-- The `self.region_patterns` table: provider → region → regex list. -/
def region_patterns : List (String × List (String × List String)) :=
  [("aws",
    [("us-east-1", [r"us-east-1", r"iad\d*", r"virginia", r"use1"]),
     ("us-east-2", [r"us-east-2", r"cmh\d*", r"ohio", r"use2"]),
     ("us-west-1", [r"us-west-1", r"sfo\d*", r"california", r"usw1"]),
     ("us-west-2", [r"us-west-2", r"pdx\d*", r"oregon", r"usw2"]),
     ("eu-west-1", [r"eu-west-1", r"dub\d*", r"ireland", r"euw1"]),
     ("eu-west-2", [r"eu-west-2", r"lhr\d*", r"london", r"euw2"]),
     ("eu-west-3", [r"eu-west-3", r"cdg\d*", r"paris", r"euw3"]),
     ("eu-central-1", [r"eu-central-1", r"fra\d*", r"frankfurt", r"euc1"]),
     ("ap-southeast-1", [r"ap-southeast-1", r"sin\d*", r"singapore", r"apse1"]),
     ("ap-northeast-1", [r"ap-northeast-1", r"nrt\d*", r"tokyo", r"apne1"])]),
   ("gcp",
    [("us-central1", [r"us-central1", r"uc1", r"iowa", r"central"]),
     ("us-east1", [r"us-east1", r"ue1", r"south.carolina", r"eastern"]),
     ("us-west1", [r"us-west1", r"uw1", r"oregon", r"western"]),
     ("us-west2", [r"us-west2", r"uw2", r"los.angeles"]),
     ("us-west3", [r"us-west3", r"uw3", r"salt.lake"]),
     ("us-west4", [r"us-west4", r"uw4", r"las.vegas"]),
     ("europe-west1", [r"europe-west1", r"ew1", r"belgium", r"st.ghislain"]),
     ("europe-west2", [r"europe-west2", r"ew2", r"london", r"lhr\d*"]),
     ("europe-west3", [r"europe-west3", r"ew3", r"frankfurt", r"fra\d*"]),
     ("europe-west4", [r"europe-west4", r"ew4", r"netherlands", r"eemshaven", r"ams\d*"]),
     ("europe-west9", [r"europe-west9", r"ew9", r"paris", r"par\d+s\d+", r"cdg\d*"]),
     ("asia-southeast1", [r"asia-southeast1", r"as1", r"singapore", r"sin\d*"]),
     ("asia-northeast1", [r"asia-northeast1", r"an1", r"tokyo", r"nrt\d*"])]),
   ("azure",
    [("eastus", [r"eastus", r"east.us", r"virginia"]),
     ("eastus2", [r"eastus2", r"east.us.2", r"virginia2"]),
     ("westus", [r"westus", r"west.us", r"california"]),
     ("westus2", [r"westus2", r"west.us.2", r"washington"]),
     ("northeurope", [r"northeurope", r"north.europe", r"ireland"]),
     ("westeurope", [r"westeurope", r"west.europe", r"netherlands"]),
     ("francecentral", [r"francecentral", r"france.central", r"paris"]),
     ("germanywestcentral", [r"germanywestcentral", r"germany.west", r"frankfurt"]),
     ("eastasia", [r"eastasia", r"east.asia", r"hong.kong"]),
     ("southeastasia", [r"southeastasia", r"southeast.asia", r"singapore"])]),
   ("ovh",
    [("gra7", [r"gra\d*", r"gravelines", r"gra7", r"\.gra-", r"gra-g\d+", r"be\d+\.gra-g\d+", r"gra-g\d+-nc\d+", r"\.gra\.", r"-gra\.", r"lil\d*-gra\d*", r"\.lil\d*-gra\d*-"]),
     ("gra9", [r"gra9", r"gravelines9"]),
     ("rbx8", [r"rbx\d*", r"roubaix", r"rbx8", r"\.rbx-", r"rbx-g\d+", r"\.rbx\.", r"-rbx\.", r"lil\d*-rbx\d*", r"\.lil\d*-rbx\d*-"]),
     ("sbg5", [r"sbg\d*", r"strasbourg", r"sbg5", r"\.sbg-", r"sbg-g\d+", r"\.sbg\.", r"-sbg\.", r"lil\d*-sbg\d*", r"\.lil\d*-sbg\d*-"]),
     ("bhs5", [r"bhs\d*", r"beauharnois", r"montreal", r"bhs5", r"\.bhs-", r"bhs-g\d+", r"\.bhs\.", r"-bhs\.", r"lil\d*-bhs\d*", r"\.lil\d*-bhs\d*-"]),
     ("waw1", [r"waw\d*", r"warsaw", r"poland", r"waw1", r"\.waw-", r"waw-g\d+", r"\.waw\.", r"-waw\.", r"lil\d*-waw\d*", r"\.lil\d*-waw\d*-"]),
     ("lon1", [r"lon\d*", r"london", r"lon1", r"\.lon-", r"lon-g\d+", r"\.lon\.", r"-lon\.", r"lil\d*-lon\d*", r"\.lil\d*-lon\d*-"]),
     ("fra1", [r"fra\d*", r"frankfurt", r"fra1", r"\.fra-", r"fra-g\d+", r"\.fra\.", r"-fra\.", r"lil\d*-fra\d*", r"\.lil\d*-fra\d*-"]),
     ("sin1", [r"sin\d*", r"singapore", r"sin1", r"\.sin-", r"sin-g\d+", r"\.sin\.", r"-sin\.", r"lil\d*-sin\d*", r"\.lil\d*-sin\d*-"]),
     ("syd1", [r"syd\d*", r"sydney", r"australia", r"syd1", r"\.syd-", r"syd-g\d+", r"\.syd\.", r"-syd\.", r"lil\d*-syd\d*", r"\.lil\d*-syd\d*-"])]),
   ("cloudflare",
    [("ams", [r"ams\d*", r"amsterdam", r"\.ams\.", r"-ams\.", r"ams\d+\.cloudflare"]),
     ("atl", [r"atl\d*", r"atlanta", r"\.atl\.", r"-atl\.", r"atl\d+\.cloudflare"]),
     ("bom", [r"bom\d*", r"mumbai", r"\.bom\.", r"-bom\.", r"bom\d+\.cloudflare"]),
     ("cdg", [r"cdg\d*", r"paris", r"\.cdg\.", r"-cdg\.", r"cdg\d+\.cloudflare"]),
     ("dfw", [r"dfw\d*", r"dallas", r"\.dfw\.", r"-dfw\.", r"dfw\d+\.cloudflare"]),
     ("fra", [r"fra\d*", r"frankfurt", r"\.fra\.", r"-fra\.", r"fra\d+\.cloudflare"]),
     ("iad", [r"iad\d*", r"washington", r"ashburn", r"\.iad\.", r"-iad\.", r"iad\d+\.cloudflare"]),
     ("lax", [r"lax\d*", r"los.angeles", r"\.lax\.", r"-lax\.", r"lax\d+\.cloudflare"]),
     ("lhr", [r"lhr\d*", r"london", r"\.lhr\.", r"-lhr\.", r"lhr\d+\.cloudflare"]),
     ("nrt", [r"nrt\d*", r"tokyo", r"\.nrt\.", r"-nrt\.", r"nrt\d+\.cloudflare"]),
     ("ord", [r"ord\d*", r"chicago", r"\.ord\.", r"-ord\.", r"ord\d+\.cloudflare"]),
     ("sea", [r"sea\d*", r"seattle", r"\.sea\.", r"-sea\.", r"sea\d+\.cloudflare"]),
     ("sin", [r"sin\d*", r"singapore", r"\.sin\.", r"-sin\.", r"sin\d+\.cloudflare"]),
     ("syd", [r"syd\d*", r"sydney", r"\.syd\.", r"-syd\.", r"syd\d+\.cloudflare"])]),
   ("akamai",
    [("ams", [r"ams\d*", r"amsterdam", r"\.ams\.", r"-ams\.", r"ams\d+\.akamai", r"\.akam\.net.*ams"]),
     ("atl", [r"atl\d*", r"atlanta", r"\.atl\.", r"-atl\.", r"atl\d+\.akamai", r"\.akam\.net.*atl"]),
     ("bos", [r"bos\d*", r"boston", r"\.bos\.", r"-bos\.", r"bos\d+\.akamai", r"\.akam\.net.*bos"]),
     ("cdg", [r"cdg\d*", r"paris", r"\.cdg\.", r"-cdg\.", r"cdg\d+\.akamai", r"\.akam\.net.*cdg"]),
     ("dfw", [r"dfw\d*", r"dallas", r"\.dfw\.", r"-dfw\.", r"dfw\d+\.akamai", r"\.akam\.net.*dfw"]),
     ("fra", [r"fra\d*", r"frankfurt", r"\.fra\.", r"-fra\.", r"fra\d+\.akamai", r"\.akam\.net.*fra"]),
     ("lax", [r"lax\d*", r"los.angeles", r"\.lax\.", r"-lax\.", r"lax\d+\.akamai", r"\.akam\.net.*lax"]),
     ("lhr", [r"lhr\d*", r"london", r"\.lhr\.", r"-lhr\.", r"lhr\d+\.akamai", r"\.akam\.net.*lhr"]),
     ("mia", [r"mia\d*", r"miami", r"\.mia\.", r"-mia\.", r"mia\d+\.akamai", r"\.akam\.net.*mia"]),
     ("nrt", [r"nrt\d*", r"tokyo", r"\.nrt\.", r"-nrt\.", r"nrt\d+\.akamai", r"\.akam\.net.*nrt"]),
     ("ord", [r"ord\d*", r"chicago", r"\.ord\.", r"-ord\.", r"ord\d+\.akamai", r"\.akam\.net.*ord"]),
     ("sea", [r"sea\d*", r"seattle", r"\.sea\.", r"-sea\.", r"sea\d+\.akamai", r"\.akam\.net.*sea"]),
     ("sin", [r"sin\d*", r"singapore", r"\.sin\.", r"-sin\.", r"sin\d+\.akamai", r"\.akam\.net.*sin"]),
     ("syd", [r"syd\d*", r"sydney", r"\.syd\.", r"-syd\.", r"syd\d+\.akamai", r"\.akam\.net.*syd"])]),
   ("hetzner",
    [("fsn", [r"fsn\d*", r"falkenstein"]),
     ("nbg", [r"nbg\d*", r"nuremberg"]),
     ("hel", [r"hel\d*", r"helsinki"]),
     ("ash", [r"ash\d*", r"ashburn"]),
     ("hil", [r"hil\d*", r"hillsboro"])]),
   ("digitalocean",
    [("nyc", [r"nyc\d*", r"new-york"]),
     ("sfo", [r"sfo\d*", r"san-francisco"]),
     ("ams", [r"ams\d*", r"amsterdam"]),
     ("sgp", [r"sgp\d*", r"singapore"]),
     ("lon", [r"lon\d*", r"london"]),
     ("fra", [r"fra\d*", r"frankfurt"]),
     ("tor", [r"tor\d*", r"toronto"]),
     ("blr", [r"blr\d*", r"bangalore"])]),
   ("github",
    [("fra", [r"fra", r"frankfurt", r"de-cix\.fra", r"\.fra\.github", r"-fra\.github"]),
     ("sea", [r"sea", r"seattle"]),
     ("iad", [r"iad", r"ashburn", r"washington"]),
     ("sjc", [r"sjc", r"san-jose"]),
     ("lhr", [r"lhr", r"london"]),
     ("sin", [r"sin", r"singapore"])])]

/-- The `self.country_to_region_mapping` table: provider → country → region. -/
def country_to_region_mapping : List (String × List (String × String)) :=
  [("aws",
    [("US", "us-east-1"), ("IE", "eu-west-1"), ("GB", "eu-west-2"),
     ("FR", "eu-west-3"), ("DE", "eu-central-1"), ("SG", "ap-southeast-1"),
     ("JP", "ap-northeast-1"), ("CA", "ca-central-1"), ("AU", "ap-southeast-2"),
     ("BR", "sa-east-1"), ("KR", "ap-northeast-2"), ("IN", "ap-south-1")]),
   ("gcp",
    [("US", "us-central1"), ("BE", "europe-west1"), ("GB", "europe-west2"),
     ("DE", "europe-west3"), ("NL", "europe-west4"), ("SG", "asia-southeast1"),
     ("JP", "asia-northeast1"), ("CA", "northamerica-northeast1"),
     ("AU", "australia-southeast1"), ("BR", "southamerica-east1"),
     ("KR", "asia-northeast3"), ("IN", "asia-south1"), ("FR", "europe-west9")]),
   ("azure",
    [("US", "eastus"), ("IE", "northeurope"), ("NL", "westeurope"),
     ("FR", "francecentral"), ("DE", "germanywestcentral"), ("HK", "eastasia"),
     ("SG", "southeastasia"), ("GB", "uksouth"), ("CA", "canadacentral"),
     ("AU", "australiaeast"), ("BR", "brazilsouth"), ("KR", "koreacentral"),
     ("IN", "centralindia"), ("JP", "japaneast")]),
   ("ovh",
    [("FR", "gra7"), ("DE", "fra1"), ("GB", "lon1"), ("CA", "bhs5"),
     ("PL", "waw1"), ("SG", "sin1"), ("AU", "syd1"), ("US", "us-east-va-1")]),
   ("digitalocean",
    [("US", "nyc1"), ("NL", "ams3"), ("GB", "lon1"), ("DE", "fra1"),
     ("SG", "sgp1"), ("CA", "tor1"), ("IN", "blr1")]),
   ("hetzner",
    [("DE", "fsn1"), ("FI", "hel1"), ("US", "ash")]),
   ("cloudflare",
    [("US", "iad"), ("GB", "lhr"), ("DE", "fra"), ("SG", "sin"),
     ("FR", "cdg"), ("NL", "ams"), ("JP", "nrt")])]

/-- First-match association lookup (Python `dict` access in insertion order). -/
def lookupA {α : Type} (table : List (String × α)) (key : String) : Option α :=
  match table.find? (fun kv => kv.1 == key) with
  | some kv => some kv.2
  | none => none

/-- Is `s` a run of 1 to 3 decimal digits (one `\d{1,3}` group)? -/
def isOctetStr (s : Str) : Bool :=
  1 ≤ s.length ∧ s.length ≤ 3 ∧ s.all Char.isDigit

/-- Model of `RegionDetector._is_ip_address`.  The IPv4 test is the anchored pattern
of four 1-3 digit groups separated by dots, rendered here as a split; the
IPv6 test keeps Python's operator precedence
`(re.match(...) and '::' in addr) or addr.count(':') >= 2`. -/
def _is_ip_address (addr : Str) : Bool :=
  (match splitOnCharL '.' addr with
   | [a, b, c, d] => isOctetStr a && isOctetStr b && isOctetStr c && isOctetStr d
   | _ => false)
  || ((decide (addr ≠ []) && addr.all (fun c => isHexDigitL c || c == ':')
        && occursIn "::".data addr)
      || decide (addr.count ':' ≥ 2))

/-- The `provider_indicators` table of `RegionDetector._identify_provider`. -/
def provider_indicators : List (String × List String) :=
  [("aws", ["amazonaws.com", "aws.com", "ec2", "cloudfront", "amazon.com"]),
   ("gcp", ["googleapis.com", "google.com", "gcp", "googlers.com", "1e100.net", "googleusercontent.com"]),
   ("azure", ["azure.com", "microsoft.com", "azureedge.net", "msft.net"]),
   ("ovh", ["ovh.net", "ovh.com", "kimsufi.com", "soyoustart.com", "ovh.fr", ".fr.eu", "gra-g", "rbx-", "sbg-", "bhs-", "be102.gra-g", "be103.gra-g", "be104.gra-g", "gra-g1-nc", "gra-g2-nc", "gra-g3-nc", "rbx-g1-nc", "be103.lil", "be102.lil", "be104.lil", "lil1-rbx", "lil1-gra", "lil1-sbg", "lil1-bhs", "-sbb1-nc", "-sbb2-nc"]),
   ("cloudflare", ["cloudflare.com", "cloudflare.net", "cf-dns.com", "2606:4700", "172.64.", "172.65.", "172.66.", "172.67.", "104.16.", "104.17.", "104.18.", "104.19.", "104.20.", "104.21.", "104.22.", "104.23.", "104.24.", "104.25.", "104.26.", "104.27.", "104.28.", "104.29.", "104.30.", "104.31."]),
   ("akamai", ["akamai.com", "akamai.net", "akamaitechnologies.com", "akam.net", "akamaiedge.net", "akamai-staging.net", "deploy.static.akamaitechnologies.com", "deploy.akamaitechnologies.com", "g2a02-26f0", "a248.e.akamai.net", "e.akamai.net"]),
   ("hetzner", ["hetzner.de", "hetzner.com", "your-server.de"]),
   ("digitalocean", ["digitalocean.com", "do.co", "nyc.co"]),
   ("github", ["github.com", "github.io", "githubassets.com", "githubusercontent.com"])]

/-- Model of `RegionDetector._identify_provider`: first provider one of whose
indicator tokens occurs in the hostname. -/
def _identify_provider (hostname : Str) : Option String :=
  provider_indicators.findSome? (fun pi_ =>
    if pi_.2.any (fun ind => occursIn ind.data hostname) then some pi_.1 else none)

/-- Model of `RegionDetector._identify_region`: first region of the provider one of
whose patterns `re.search`-matches the hostname. -/
def _identify_region (hostname : Str) (provider : String) : Option String :=
  match lookupA region_patterns provider with
  | none => none
  | some provider_regions =>
    provider_regions.findSome? (fun rp =>
      if rp.2.any (fun pat => reSearchPat pat hostname) then some rp.1 else none)

/-- The Cloudflare IPv4 prefix strings of `_analyze_ip_ranges` (source line
846), in source order. -/
def cloudflareV4Starts : List String :=
  ["104.16.", "104.17.", "104.18.", "104.19.", "104.20.", "104.21.",
   "104.22.", "104.23.", "104.24.", "104.25.", "104.26.", "104.27.",
   "104.28.", "104.29.", "104.30.", "104.31.", "172.64.", "172.65.",
   "172.66.", "172.67."]

/-- Last `:`-separated group of a string (`s.split(':')[-1]`;
`split` never yields an empty list). -/
def lastColonGroup (s : Str) : Str :=
  (splitOnCharL ':' s).getLastD []

/-- The Akamai region codes recognized by `_analyze_ip_ranges`. -/
def akamaiKnownCodes : List String :=
  ["ams", "fra", "lhr", "cdg", "sin", "nrt", "lax", "ord", "sea", "dfw",
   "atl", "bos", "mia", "syd"]

/-- Attempt to match `\.([a-z]{3})\d*\.` at the head of `s`; the quantifier
`\d*` is greedy and `.` is not a digit, so matching is deterministic. -/
def akamaiTokenAt : Str → Option Str
  | '.' :: a :: b :: c :: rest =>
    if isLowerAlpha a ∧ isLowerAlpha b ∧ isLowerAlpha c then
      match rest.dropWhile Char.isDigit with
      | '.' :: _ => some [a, b, c]
      | _ => none
    else none
  | _ => none

/-- Leftmost capture of `re.search(r'\.([a-z]{3})\d*\.', s)`. -/
def firstAkamaiToken (s : Str) : Option Str :=
  s.tails.findSome? akamaiTokenAt

/-- The Cloudflare IPv6 block of `_analyze_ip_ranges` (source lines
806-843): the European sub-block (`2606:4700:10::` substring) maps the
last 16-bit group to `cdg`/`ams`/`lhr` with default `cdg`; the US
sub-block (`2606:4700::68` substring) maps it to `iad`/`lax` with default
`iad`; any other address of the block is Cloudflare with no region. -/
def cloudflareV6Result (hostname_or_ip : Str) : Option String × Option String :=
  if occursIn "2606:4700:10::".data hostname_or_ip then
    match pyHexParse (lastColonGroup hostname_or_ip) with
    | some last_int =>
      if 0x1400 ≤ last_int ∧ last_int ≤ 0x14ff then (some "cloudflare", some "cdg")
      else if 0x1500 ≤ last_int ∧ last_int ≤ 0x15ff then (some "cloudflare", some "ams")
      else if 0x1600 ≤ last_int ∧ last_int ≤ 0x16ff then (some "cloudflare", some "lhr")
      else (some "cloudflare", some "cdg")
    | none => (some "cloudflare", some "cdg")
  else if occursIn "2606:4700::68".data hostname_or_ip then
    match pyHexParse (lastColonGroup hostname_or_ip) with
    | some last_int =>
      if 0x8500 ≤ last_int ∧ last_int ≤ 0x85ff then (some "cloudflare", some "iad")
      else if 0x8600 ≤ last_int ∧ last_int ≤ 0x86ff then (some "cloudflare", some "lax")
      else (some "cloudflare", some "iad")
    | none => (some "cloudflare", some "iad")
  else (some "cloudflare", none)

/-- The Akamai hostname block of `_analyze_ip_ranges` (source lines
851-859): the leftmost `\.([a-z]{3})\d*\.` capture gives the region when
it is a known code. -/
def akamaiHostResult (hostname_or_ip : Str) : Option String × Option String :=
  match firstAkamaiToken hostname_or_ip with
  | some tok =>
    if akamaiKnownCodes.contains (String.mk tok) then
      (some "akamai", some (String.mk tok))
    else (some "akamai", none)
  | none => (some "akamai", none)

/-- Body of the `_analyze_ip_ranges` loop for a single entry: `some` of the
returned pair when one of the four branches returns, `none` when the loop
moves on to the next entry. -/
def analyzeIpRangesOne (hostname_or_ip : Str) : Option (Option String × Option String) :=
  if startsWithL hostname_or_ip "2606:4700".data then
    some (cloudflareV6Result hostname_or_ip)
  else if cloudflareV4Starts.any (fun p => startsWithL hostname_or_ip p.data) then
    some (some "cloudflare", none)
  else if occursIn "akamaitechnologies.com".data hostname_or_ip
      || occursIn "akamaiedge.net".data hostname_or_ip then
    some (akamaiHostResult hostname_or_ip)
  else if startsWithL hostname_or_ip "2a02:26f0:".data then
    some (some "akamai",
      if occursIn "2a02:26f0:2b80:".data hostname_or_ip then some "ams" else none)
  else none

/-- Model of `RegionDetector._analyze_ip_ranges`: first entry that hits one of the
anycast-CDN branches decides; otherwise `(None, None)`. -/
def _analyze_ip_ranges (hostnames : List Str) : Option String × Option String :=
  match hostnames.findSome? analyzeIpRangesOne with
  | some r => r
  | none => (none, none)

/-- The hostname loop of `detect_provider_and_region`: the first hop whose
lowercased name identifies a provider and then a region for that provider
decides; a hop identifying only a provider is skipped. -/
def hopPatternMatch (hostnames : List Str) : Option (String × String) :=
  hostnames.findSome? (fun hostname =>
    let hostname_lower := pyLower hostname
    match _identify_provider hostname_lower with
    | some provider =>
      match _identify_region hostname_lower provider with
      | some region => some (provider, region)
      | none => none
    | none => none)

/-- Model of `RegionDetector.detect_provider_and_region`: hop-chain matching, then
IP-range analysis over the hops (whose provider-only result is passed
through). -/
def detect_provider_and_region (hostnames : List Str) : Option String × Option String :=
  match hopPatternMatch hostnames with
  | some pr => (some pr.1, some pr.2)
  | none =>
    let pr := _analyze_ip_ranges hostnames
    if pr.1.isSome then pr else (none, none)

/-! ### `detect_via_ip_geolocation` (evidence source E1)

The module `region_detector.py` imports only `re`, `subprocess`, `logging`,
`socket`, `requests` and names from `typing`, and defines `RegionDetector`
and `detect_region`; the name `IPWhois` applied at `obj = IPWhois(ip)` is
not among them, so in Python that statement raises `NameError`, which the
function-wide `except Exception` turns into `(None, None)`.  We model the
module scope explicitly and keep the post-lookup logic (dead code in the
source) as `geoLogicAfterLookup`. -/

/-- Names bound at module scope in `douro/core/region_detector.py`. -/
def moduleScopeNames : List String :=
  ["re", "subprocess", "logging", "socket", "requests",
   "Optional", "List", "Tuple", "Dict", "RegionDetector", "detect_region"]

/-- The fields of an `ipwhois` lookup result that the source reads. -/
structure RdapLite where
  asn : Option Str
  asn_description : Option Str
  country : Option Str

/-- Python `str(x)` on an optional string (`str(None) = "None"`). -/
def pyStr (o : Option Str) : Str :=
  match o with
  | some s => s
  | none => "None".data

/-- Python falsity of an optional string (`None` and `''` are falsy). -/
def pyFalsyStr (o : Option Str) : Bool :=
  match o with
  | some s => s.isEmpty
  | none => true

/-- Region via `country_to_region_mapping[provider]` when the country is a
key of that table (`country in self.country_to_region_mapping.get(p, {})`). -/
def countryTableRegion (provider : String) (country : Option Str) : Option String :=
  match country with
  | some c => lookupA ((lookupA country_to_region_mapping provider).getD []) (String.mk c)
  | none => none

/-- Country fallback extraction from the lowercased ASN description
(lines 249-272 of the source). -/
def countryFromOrg (asn_org : Str) : Option Str :=
  if occursIn ", fr".data asn_org || occursIn " fr".data asn_org then some "FR".data
  else if occursIn ", us".data asn_org || occursIn " us".data asn_org then some "US".data
  else if occursIn ", de".data asn_org || occursIn " de".data asn_org then some "DE".data
  else if occursIn ", gb".data asn_org || occursIn " gb".data asn_org then some "GB".data
  else if occursIn ", ca".data asn_org || occursIn " ca".data asn_org then some "CA".data
  else if occursIn ", sg".data asn_org || occursIn " sg".data asn_org then some "SG".data
  else if occursIn ", jp".data asn_org || occursIn " jp".data asn_org then some "JP".data
  else if occursIn ", au".data asn_org || occursIn " au".data asn_org then some "AU".data
  else if occursIn ", nl".data asn_org || occursIn " nl".data asn_org then some "NL".data
  else if occursIn ", be".data asn_org || occursIn " be".data asn_org then some "BE".data
  else if occursIn ", ie".data asn_org || occursIn " ie".data asn_org then some "IE".data
  else none

/-- OVH France refinement on the IPv4 octets (lines 300-321): distinguishes
GRA/RBX/SBG from the first two octets, with `gra7` as the default, and
leaves the region `None` when the split does not give four parts. -/
def ovhFranceRegion (ip : Str) : Option String :=
  match splitOnCharL '.' ip with
  | [o1, o2, _, _] =>
    match pyIntParse o1, pyIntParse o2 with
    | some first_octet, some second_octet =>
      if first_octet = 54 ∧ second_octet = 39 then some "gra7"
      else if first_octet = 151 ∧ second_octet = 80 then some "rbx8"
      else if first_octet = 51 ∧ second_octet = 38 then some "sbg5"
      else some "gra7"
    | _, _ => some "gra7"
  | _ => none

/-- ASN substrings recognized as Akamai (line 344). -/
def akamaiAsnHints : List String :=
  ["16625", "20940", "21342", "16702", "18717", "18680", "20189"]

/-- The provider/region decision of `detect_via_ip_geolocation` after a
successful `ipwhois` lookup (lines 244-368 of the source; dead code there
because the lookup itself can never be reached). -/
def geoLogicAfterLookup (ip : Str) (results : RdapLite) : Option String × Option String :=
  let asn := results.asn
  let asn_org := pyLower (results.asn_description.getD [])
  let country0 := results.country
  let country :=
    if pyFalsyStr country0 ∧ ¬ asn_org.isEmpty then
      match countryFromOrg asn_org with
      | some c => some c
      | none => country0
    else country0
  if occursIn "16509".data (pyStr asn) || occursIn "amazon".data asn_org
      || occursIn "aws".data asn_org then
    ("aws", countryTableRegion "aws" country)
  else if occursIn "15169".data (pyStr asn) || occursIn "google".data asn_org then
    ("gcp", countryTableRegion "gcp" country)
  else if occursIn "8075".data (pyStr asn) || occursIn "microsoft".data asn_org then
    ("azure", countryTableRegion "azure" country)
  else if occursIn "16276".data (pyStr asn) || occursIn "ovh".data asn_org then
    ("ovh",
      if country = some "FR".data then ovhFranceRegion ip
      else if country = some "CA".data then some "bhs5"
      else if country = some "GB".data then some "lon1"
      else if country = some "DE".data then some "fra1"
      else if country = some "PL".data then some "waw1"
      else if country = some "SG".data then some "sin1"
      else if country = some "AU".data then some "syd1"
      else none)
  else if occursIn "13335".data (pyStr asn) || occursIn "cloudflare".data asn_org then
    ("cloudflare", none)
  else if akamaiAsnHints.any (fun h => occursIn h.data (pyStr asn))
      || occursIn "akamai".data asn_org then
    ("akamai", none)
  else if occursIn "24940".data (pyStr asn) || occursIn "hetzner".data asn_org then
    ("hetzner",
      if country = some "DE".data then some "fsn"
      else if country = some "FI".data then some "hel"
      else if country = some "US".data then some "ash"
      else none)
  else if occursIn "14061".data (pyStr asn) || occursIn "digitalocean".data asn_org then
    ("digitalocean", countryTableRegion "digitalocean" country)
  else (none, none)

/-- External effects available to `detect_via_ip_geolocation`: forward DNS
and the two `ipwhois` lookup paths (`none` models the call raising). -/
structure GeoEnv where
  gethostbyname : Str → Option Str
  lookup_rdap : Str → Option RdapLite
  lookup_whois : Str → Option RdapLite

/-- Model of `RegionDetector.detect_via_ip_geolocation`.  The body runs inside
`try ... except Exception: return (None, None)`; the reference to the
unbound name `IPWhois` raises `NameError` before any lookup can happen. -/
def detect_via_ip_geolocation (env : GeoEnv) (target : Str) :
    Option String × Option String :=
  let body : Except Unit (Option String × Option String) :=
    (match (if _is_ip_address target then some target else env.gethostbyname target) with
     | none => Except.error ()
     | some ip =>
       if moduleScopeNames.contains "IPWhois" then
         match env.lookup_rdap ip with
         | some results => Except.ok (geoLogicAfterLookup ip results)
         | none =>
           match env.lookup_whois ip with
           | some results => Except.ok (geoLogicAfterLookup ip results)
           | none => Except.ok (none, none)
       else Except.error ())
  match body with
  | .ok r => r
  | .error _ => (none, none)

/-- Model of `RegionDetector.detect_hosting_region`: the fusion policy.  `mtrHops`
is the hop list that `run_mtr` would return; the source only runs the
traceroute after the first two rules have failed, which is captured here by
the first two rules returning `[]` and not consulting `mtrHops`.
`isSome` models Python truthiness: every provider and region value the
detectors can produce is a non-empty string. -/
def detect_hosting_region (env : GeoEnv) (mtrHops : List Str) (target : Str) :
    Option String × Option String × List Str :=
  let pg := detect_via_ip_geolocation env target
  let pi_ := _analyze_ip_ranges [target]
  if pi_.1.isSome && pi_.2.isSome then (pi_.1, pi_.2, [])
  else if pg.1.isSome && pg.2.isSome then (pg.1, pg.2, [])
  else
    let hostnames := mtrHops
    let lastResort : Option String × Option String × List Str :=
      if pi_.1.isSome then (pi_.1, pi_.2, hostnames)
      else if pg.1.isSome then (pg.1, pg.2, hostnames)
      else (none, none, hostnames)
    if hostnames.isEmpty then lastResort
    else
      let tr := detect_provider_and_region hostnames
      if tr.1.isSome && tr.2.isSome then (tr.1, tr.2, hostnames)
      else
        let ih := _analyze_ip_ranges hostnames
        if ih.1.isSome && ih.2.isSome then (ih.1, ih.2, hostnames)
        else lastResort

/-! ### The traceroute driver

`run_mtr` shells out to `mtr` (IPv4 then IPv6) and falls back to
`traceroute`/`tracert`.  A subprocess call is modelled by a `CmdOutcome`;
reverse DNS (`socket.gethostbyaddr`) is a `Str → Option Str` parameter
where `none` models the lookup raising. -/

/-- Outcome of one subprocess invocation: exit status 0 with captured
stdout, a non-zero exit status, or an exception
(`TimeoutExpired` / `CalledProcessError` / `FileNotFoundError`). -/
inductive CmdOutcome
  | ok (out : Str)
  | failed
  | missing

/-- The tokens dropped by `_parse_mtr_output_enhanced` as timeouts or
wildcards. -/
def mtrDropTokens : List String :=
  ["???", "*", "0.0.0.0", "(waiting", "waiting", "reply)"]

/-- The prefix tuple of the private/local-address filter of
`_parse_mtr_output_enhanced` (source line 652). -/
def privateStarts : List String :=
  ["192.168.", "10.", "172.16.", "172.17.", "172.18.", "172.19.", "172.20.",
   "172.21.", "172.22.", "172.23.", "172.24.", "172.25.", "172.26.",
   "172.27.", "172.28.", "172.29.", "172.30.", "172.31.", "bbox.lan"]

/-- Extraction of the hop token from one (stripped) mtr report line:
`re.match` of `\s*\d+\.\|\-\-\s+([^\s\(]+)(?:\s+\([^)]+\))?` and then of
`\s*\d+\.\s+([^\s]+)`.  In both patterns every quantified class is
disjoint from what follows it, so greedy matching is deterministic and is
rendered with `takeWhile`/`dropWhile`. -/
def mtrExtract (line : Str) : Option Str :=
  let afterWs := line.dropWhile pyIsSpace
  let ds := afterWs.takeWhile Char.isDigit
  let afterDs := afterWs.dropWhile Char.isDigit
  if ds.isEmpty then none else
  match afterDs with
  | '.' :: rest =>
    let pat1 : Option Str :=
      match rest with
      | '|' :: '-' :: '-' :: r =>
        match r with
        | c :: _ =>
          if pyIsSpace c then
            let r2 := r.dropWhile pyIsSpace
            let tok := r2.takeWhile (fun c => ¬ pyIsSpace c ∧ c ≠ '(')
            if tok.isEmpty then none else some tok
          else none
        | [] => none
      | _ => none
    match pat1 with
    | some t => some t
    | none =>
      match rest with
      | c :: _ =>
        if pyIsSpace c then
          let r2 := rest.dropWhile pyIsSpace
          let tok := r2.takeWhile (fun c => ¬ pyIsSpace c)
          if tok.isEmpty then none else some tok
        else none
      | [] => none
  | _ => none

/-- Per-token processing of `_parse_mtr_output_enhanced` after extraction:
the timeout/wildcard drop list, the private-prefix filter, then reverse
DNS for IP entries (PTR name kept only when it has a dot and more than 5
characters; the IP itself kept when the lookup raises) and the
dot-and-length gate for hostname entries. -/
def processMtrTok (rdns : Str → Option Str) (hostname_or_ip : Str) : Option Str :=
  if mtrDropTokens.any (fun t => hostname_or_ip = t.data) then none
  else if privateStarts.any (fun p => startsWithL hostname_or_ip p.data) then none
  else if _is_ip_address hostname_or_ip then
    match rdns hostname_or_ip with
    | some reversed_name =>
      if occursIn ".".data reversed_name ∧ reversed_name.length > 5 then
        some (pyLower reversed_name)
      else none
    | none => some hostname_or_ip
  else if occursIn ".".data hostname_or_ip ∧ hostname_or_ip.length > 3 then
    some (pyLower hostname_or_ip)
  else none

/-- One line of `_parse_mtr_output_enhanced`: strip, skip blank and header
lines, extract, process. -/
def processMtrLine (rdns : Str → Option Str) (rawLine : Str) : Option Str :=
  let line := pyStrip rawLine
  if line.isEmpty then none
  else if occursIn "HOST:".data line ∨ occursIn "Start:".data line
      ∨ occursIn "Keys:".data line then none
  else
    match mtrExtract line with
    | none => none
    | some tok => processMtrTok rdns tok

/-- The pre-deduplication hop list of `_parse_mtr_output_enhanced`. -/
def mtrRawHops (rdns : Str → Option Str) (output : Str) : List Str :=
  (splitOnCharL '\n' output).filterMap (processMtrLine rdns)

/-- The final `seen`-set deduplication loop, keeping first occurrences in
order. -/
def dedupFirst (seen : List Str) : List Str → List Str
  | [] => []
  | h :: t => if h ∈ seen then dedupFirst seen t else h :: dedupFirst (h :: seen) t

/-- Model of `RegionDetector._parse_mtr_output_enhanced`. -/
def _parse_mtr_output_enhanced (rdns : Str → Option Str) (output : Str) : List Str :=
  dedupFirst [] (mtrRawHops rdns output)

/-- Character class `[a-zA-Z0-9\-\.]` of the traceroute parsers. -/
def isHostChar (c : Char) : Bool :=
  c.isAlpha ∨ c.isDigit ∨ c = '-' ∨ c = '.'

/-- Attempt the unix-traceroute pattern `\s+\d+\s+([a-zA-Z0-9\-\.]+)\s+\(`
at the current position (all quantified classes are disjoint from their
successors, so greedy matching is deterministic). -/
def unixHostAt (s : Str) : Option Str :=
  match s with
  | c0 :: _ =>
    if ¬ pyIsSpace c0 then none else
    let r1 := s.dropWhile pyIsSpace
    let ds := r1.takeWhile Char.isDigit
    if ds.isEmpty then none else
    let r2 := r1.dropWhile Char.isDigit
    match r2 with
    | c2 :: _ =>
      if ¬ pyIsSpace c2 then none else
      let r3 := r2.dropWhile pyIsSpace
      let tok := r3.takeWhile isHostChar
      if tok.isEmpty then none else
      let r4 := r3.dropWhile isHostChar
      match r4 with
      | c4 :: _ =>
        if ¬ pyIsSpace c4 then none else
        match r4.dropWhile pyIsSpace with
        | '(' :: _ => some tok
        | _ => none
      | [] => none
    | [] => none
  | [] => none

/-- Leftmost match of the unix-traceroute hostname pattern
(`re.search` semantics). -/
def unixLineHost (line : Str) : Option Str :=
  line.tails.findSome? unixHostAt

/-- Model of `RegionDetector._parse_traceroute_unix`: per line, keep the
parenthesis-preceded name unless it is `*` or has no dot.  No private-range
filter, no reverse DNS and no deduplication happen here. -/
def _parse_traceroute_unix (output : Str) : List Str :=
  (splitOnCharL '\n' output).filterMap (fun line =>
    if (pyStrip line).isEmpty then none
    else
      match unixLineHost line with
      | some hostname =>
        if hostname ≠ "*".data ∧ occursIn ".".data hostname then
          some (pyLower hostname)
        else none
      | none => none)

/-- Attempt the windows-tracert pattern `\s+([a-zA-Z0-9\-\.]+)\s+\[` at the
current position. -/
def windowsHostAt (s : Str) : Option Str :=
  match s with
  | c0 :: _ =>
    if ¬ pyIsSpace c0 then none else
    let r1 := s.dropWhile pyIsSpace
    let tok := r1.takeWhile isHostChar
    if tok.isEmpty then none else
    let r2 := r1.dropWhile isHostChar
    match r2 with
    | c2 :: _ =>
      if ¬ pyIsSpace c2 then none else
      match r2.dropWhile pyIsSpace with
      | '[' :: _ => some tok
      | _ => none
    | [] => none
  | [] => none

/-- Model of `RegionDetector._parse_traceroute_windows`. -/
def _parse_traceroute_windows (output : Str) : List Str :=
  (splitOnCharL '\n' output).filterMap (fun line =>
    if ¬ (pyStrip line).isEmpty
        ∧ ((line.dropWhile pyIsSpace).headD ' ').isDigit then
      match line.tails.findSome? windowsHostAt with
      | some hostname =>
        if hostname ≠ "*".data ∧ occursIn ".".data hostname then
          some (pyLower hostname)
        else none
      | none => none
    else none)

/-- Model of `RegionDetector.run_traceroute_fallback`: unix `traceroute`, and
`tracert` only when `traceroute` ran but exited non-zero (an exception
from the first invocation skips the second, the shared `try` swallows it). -/
def run_traceroute_fallback (tr tracert : CmdOutcome) : List Str :=
  match tr with
  | .ok out => _parse_traceroute_unix out
  | .failed =>
    match tracert with
    | .ok out => _parse_traceroute_windows out
    | _ => []
  | .missing => []

/-- One `mtr` attempt inside the `run_mtr` loop: used only when the exit
status is 0 and the stripped stdout is non-blank. -/
def mtrTry (rdns : Str → Option Str) : CmdOutcome → List Str
  | .ok out => if (pyStrip out).isEmpty then [] else _parse_mtr_output_enhanced rdns out
  | _ => []

/-- Model of `RegionDetector.run_mtr`: IPv4 `mtr`, then IPv6 `mtr`, then the
traceroute fallback; the first attempt with a non-empty parsed hop list
wins. -/
def run_mtr (rdns : Str → Option Str) (mtr4 mtr6 tr tracert : CmdOutcome) : List Str :=
  let h4 := mtrTry rdns mtr4
  if ¬ h4.isEmpty then h4
  else
    let h6 := mtrTry rdns mtr6
    if ¬ h6.isEmpty then h6
    else run_traceroute_fallback tr tracert

/-! ### The analysis pipeline (`douro/core/analyzer.py`)

`datetime` values are modelled by their integer timestamps.  Each external
library call a source `try` wraps is a parameter whose `none` models the
call raising; `resolve_dns`, `get_whois_info`, `get_ip_whois` and
`check_https` catch every such failure internally and therefore never
raise, exactly as in the source. -/

/-- The `DomainInfo` dataclass with its field defaults. -/
structure DomainInfo where
  domain : Str
  dns_resolve_duration : Rat := 0
  ip_addresses : List Str := []
  ns_records : List Str := []
  registrar : Option Str := none
  expiration_date : Option Int := none
  asn : Option Str := none
  asn_org : Option Str := none
  country : Option Str := none
  hosting_provider : Option String := none
  hosting_region : Option String := none
  http_status : Int := 0
  server_header : Option Str := none
  tls_expiration : Option Int := none
  cdn_detected : Bool := false
  error : List (String × String) := []

/-- Model of `resolve_dns`: A answers, AAAA answers when A is empty, NS answers with
trailing dots stripped; a `none` answer models `dns.resolver.resolve`
raising a `DNSException`, which the source swallows into an empty record
set.  The function never raises. -/
def resolve_dns (dnsA dnsAAAA dnsNS : Option (List Str)) (duration : Rat) :
    Rat × List Str × List Str :=
  let ip_addresses := (dnsA.getD [])
  let ip_addresses := if ip_addresses.isEmpty then (dnsAAAA.getD []) else ip_addresses
  let ns_records := (dnsNS.getD []).map pyRstripDot
  (duration, ip_addresses, ns_records)

/-- The shape of `whois.whois(domain).expiration_date`: either a list of
dates or a single optional date. -/
inductive PyExpiration
  | lst (l : List Int)
  | dt (d : Option Int)

/-- Model of `get_whois_info`: registrar and first expiration date; `none` for the
whole answer models `whois.whois` raising, which returns `(None, None)`. -/
def get_whois_info (answer : Option (Option Str × PyExpiration)) :
    Option Str × Option Int :=
  match answer with
  | none => (none, none)
  | some (registrar, e) =>
    let expiration_date :=
      match e with
      | .lst l => l.head?
      | .dt d => d
    (registrar, expiration_date)

/-- The CDN keyword list of `is_cdn_ip`. -/
def cdn_keywords : List String :=
  ["cloudflare", "akamai", "fastly", "cdn", "amazon", "aws",
   "microsoft", "azure", "google", "gcp", "limelight", "edgecast",
   "stackpath", "keycdn", "cloudfront"]

/-- The known-CDN ASN list of `is_cdn_ip`. -/
def cdn_asns : List String :=
  ["13335", "16625", "54113", "16509", "8075", "15169"]

/-- Model of `is_cdn_ip`: false when either argument is missing or empty (Python
falsity), else keyword containment on the lowercased organization, else
ASN membership. -/
def is_cdn_ip (asn org : Option Str) : Bool :=
  if pyFalsyStr asn ∨ pyFalsyStr org then false
  else
    let org_lower := pyLower (org.getD [])
    if cdn_keywords.any (fun k => occursIn k.data org_lower) then true
    else cdn_asns.any (fun a => asn.getD [] = a.data)

/-- Model of `check_https`: the GET on `https://<domain>` and the TLS connection
plus `strptime` run in one `try`; any failure after the GET discards its
result and yields `(0, None, None)`.  `httpGet = some (status, server)`
models a successful GET; `tlsConn = some notAfter?` a successful TLS
handshake with optional `notAfter` in the certificate; `strptime` returns
`none` when date parsing raises. -/
def check_https (httpGet : Option (Int × Option Str)) (tlsConn : Option (Option Str))
    (strptime : Str → Option Int) : Int × Option Str × Option Int :=
  match httpGet with
  | none => (0, none, none)
  | some (status_code, server_header) =>
    match tlsConn with
    | none => (0, none, none)
    | some notAfter? =>
      match notAfter? with
      | some na =>
        match strptime na with
        | some tls_expiration => (status_code, server_header, some tls_expiration)
        | none => (0, none, none)
      | none => (status_code, server_header, none)

/-- All external answers one `analyze_domain` run consumes. -/
structure PipelineEnv where
  dnsA : Option (List Str)
  dnsAAAA : Option (List Str)
  dnsNS : Option (List Str)
  dnsDuration : Rat
  whoisAnswer : Option (Option Str × PyExpiration)
  ipWhois : Str → Option Str × Option Str × Option Str
  geo : GeoEnv
  mtrHops : List Str
  httpGet : Option (Int × Option Str)
  tlsConn : Option (Option Str)
  strptime : Str → Option Int

/-- Model of `analyze_domain`: the per-domain pipeline.  The stage helpers never
raise (each catches its library's failures internally), so none of the
stage `except` clauses can fire and the error map stays empty; the early
return on an empty IP list skips every later stage. -/
def analyze_domain (env : PipelineEnv) (domain : Str) : DomainInfo :=
  let r0 : DomainInfo := { domain := domain }
  let dns := resolve_dns env.dnsA env.dnsAAAA env.dnsNS env.dnsDuration
  let r1 := { r0 with
    dns_resolve_duration := dns.1, ip_addresses := dns.2.1, ns_records := dns.2.2 }
  match r1.ip_addresses with
  | [] => r1
  | ip :: _ =>
    let w := get_whois_info env.whoisAnswer
    let r2 := { r1 with registrar := w.1, expiration_date := w.2 }
    let iw := env.ipWhois ip
    let r3 := { r2 with
      asn := iw.1, asn_org := iw.2.1, country := iw.2.2,
      cdn_detected := is_cdn_ip iw.1 iw.2.1 }
    let det := detect_hosting_region env.geo env.mtrHops ip
    let r4 := { r3 with hosting_provider := det.1, hosting_region := det.2.1 }
    let hc := check_https env.httpGet env.tlsConn env.strptime
    { r4 with http_status := hc.1, server_header := hc.2.1, tls_expiration := hc.2.2 }

/-! ### Metric projection (`douro/core/metrics.py`)

Each labelled gauge family is a partial map from its label values; setting
a gauge is a pointwise functional update. -/

/-- Pointwise update of a labelled gauge family. -/
def setG {κ ν : Type} [DecidableEq κ] (g : κ → Option ν) (k : κ) (v : ν) :
    κ → Option ν :=
  fun q => if q = k then some v else g q

/-- The five stage labels of the `douro_scrape_error` loop, in source
order. -/
def stageNames : List String :=
  ["dns", "whois_domain", "whois_ip", "https", "region_detection"]

/-- Key membership in the error map (`stage in info.error`). -/
def errHasKey (e : List (String × String)) (k : String) : Bool :=
  e.any (fun kv => kv.1 == k)

/-- Label rendering `value or 'unknown'`. -/
def orUnknown (o : Option Str) : Str :=
  match o with
  | some s => if s.isEmpty then "unknown".data else s
  | none => "unknown".data

/-- Label rendering for the provider/region fields. -/
def orUnknownS (o : Option String) : Str :=
  match o with
  | some s => if s.data.isEmpty then "unknown".data else s.data
  | none => "unknown".data

/-- The label dictionary of the `douro_domain_info` metric. -/
def infoLabels (info : DomainInfo) : List (String × Str) :=
  [("registrar", orUnknown info.registrar),
   ("asn", orUnknown info.asn),
   ("asn_org", orUnknown info.asn_org),
   ("country", orUnknown info.country),
   ("hosting_provider", orUnknownS info.hosting_provider),
   ("hosting_region", orUnknownS info.hosting_region),
   ("cdn", if info.cdn_detected then "true".data else "false".data)]

/-- The gauge families and info metric of `DouroMetrics`. -/
structure MetricsState where
  domain_info : Str → Option (List (String × Str))
  http_status : Str → Option Int
  dns_resolve_duration : Str → Option Rat
  domain_expiration : Str → Option Int
  tls_expiration : Str → Option Int
  scrape_duration : Option Rat
  scrape_error : Str × String → Option Nat

/-- The body of the `update_metrics` loop for one `DomainInfo`. -/
def updateInfoMetrics (s : MetricsState) (info : DomainInfo) : MetricsState :=
  { s with
    domain_info := setG s.domain_info info.domain (infoLabels info),
    http_status := setG s.http_status info.domain info.http_status,
    dns_resolve_duration :=
      setG s.dns_resolve_duration info.domain info.dns_resolve_duration,
    domain_expiration :=
      match info.expiration_date with
      | some d => setG s.domain_expiration info.domain d
      | none => s.domain_expiration,
    tls_expiration :=
      match info.tls_expiration with
      | some d => setG s.tls_expiration info.domain d
      | none => s.tls_expiration,
    scrape_error :=
      stageNames.foldl
        (fun g stage =>
          setG g (info.domain, stage) (if errHasKey info.error stage then 1 else 0))
        s.scrape_error }

/-- Model of `DouroMetrics.update_metrics`; `elapsed` is the wall-clock duration the
source measures around the loop. -/
def update_metrics (s : MetricsState) (domain_infos : List DomainInfo) (elapsed : Rat) :
    MetricsState :=
  let s1 := domain_infos.foldl updateInfoMetrics s
  { s1 with scrape_duration := some elapsed }

/-! ### Specification-side definitions

The following definitions transcribe claims of the specification (not the
source); they exist to be compared with the source-derived definitions
above. -/

/-- First hop of the chain that identifies a provider at all (the natural
reading of a provider "emerging from E3" in claim C1's rule 5). -/
def hopFirstProvider (hostnames : List Str) : Option String :=
  hostnames.findSome? (fun hostname => _identify_provider (pyLower hostname))

/-- The fusion policy exactly as claim C1 states it: (1) E2 on the target;
(2) E1 with both present; (3) hop-chain matching over the hops; (4) E2 on
the hops; (5) a provider that emerged from E1 or E3 is returned with no
region; (6) otherwise nothing.  Rules 1 and 2 do not consult the hop
list. -/
def specFusionC1 (env : GeoEnv) (mtrHops : List Str) (target : Str) :
    Option String × Option String × List Str :=
  let e2 := _analyze_ip_ranges [target]
  if e2.1.isSome && e2.2.isSome then (e2.1, e2.2, [])
  else
    let e1 := detect_via_ip_geolocation env target
    if e1.1.isSome && e1.2.isSome then (e1.1, e1.2, [])
    else
      let hops := mtrHops
      match hopPatternMatch hops with
      | some pr => (some pr.1, some pr.2, hops)
      | none =>
        let ih := _analyze_ip_ranges hops
        if ih.1.isSome && ih.2.isSome then (ih.1, ih.2, hops)
        else if e1.1.isSome then (e1.1, none, hops)
        else
          match hopFirstProvider hops with
          | some p => (some p, none, hops)
          | none => (none, none, hops)

/-- The fusion policy as amended by the counterexample to claim C1: rules
1-4 as the claim states them; in rule 5 the provider-only fallback comes
from E2 on the target first and from E1 second, and a provider that
emerged only from E3 is discarded. -/
def amendedFusionC1 (env : GeoEnv) (mtrHops : List Str) (target : Str) :
    Option String × Option String × List Str :=
  let e2 := _analyze_ip_ranges [target]
  if e2.1.isSome && e2.2.isSome then (e2.1, e2.2, [])
  else
    let e1 := detect_via_ip_geolocation env target
    if e1.1.isSome && e1.2.isSome then (e1.1, e1.2, [])
    else
      let hops := mtrHops
      match hopPatternMatch hops with
      | some pr => (some pr.1, some pr.2, hops)
      | none =>
        let ih := _analyze_ip_ranges hops
        if ih.1.isSome && ih.2.isSome then (ih.1, ih.2, hops)
        else if e2.1.isSome then (e2.1, e2.2, hops)
        else if e1.1.isSome then (e1.1, e1.2, hops)
        else (none, none, hops)

/-- Canonical dotted-quad text of an IPv4 address (specification-side; used
to quantify over every address of a CIDR block). -/
def renderIPv4 (a b c d : Nat) : Str :=
  (Nat.repr a).data ++ '.' :: (Nat.repr b).data ++ '.' :: (Nat.repr c).data
    ++ '.' :: (Nat.repr d).data

/-- Octet membership in `104.16.0.0/12` (specification-side). -/
def specIn104_16_12 (a b c d : Nat) : Prop :=
  a = 104 ∧ 16 ≤ b ∧ b ≤ 31 ∧ c ≤ 255 ∧ d ≤ 255

/-- Octet membership in `172.64.0.0/13` (specification-side; the block the
claim names). -/
def specIn172_64_13 (a b c d : Nat) : Prop :=
  a = 172 ∧ 64 ≤ b ∧ b ≤ 71 ∧ c ≤ 255 ∧ d ≤ 255

/-- Octet membership in `172.64.0.0/14` (specification-side; the block the
source actually covers). -/
def specIn172_64_14 (a b c d : Nat) : Prop :=
  a = 172 ∧ 64 ≤ b ∧ b ≤ 67 ∧ c ≤ 255 ∧ d ≤ 255

/-- A geolocation environment in which every external call raises; by C3
the choice is irrelevant. -/
def geoEnvNone : GeoEnv := ⟨fun _ => none, fun _ => none, fun _ => none⟩

/-- The `ipwhois` answer of the C2 scenario: ASN 16276, organization OVH,
country FR. -/
def rdapOvhFr : RdapLite :=
  ⟨some "16276".data, some "OVH".data, some "FR".data⟩

/-- A geolocation environment that answers the C2 scenario's mocked WHOIS
data for every lookup. -/
def geoEnvOvh : GeoEnv :=
  ⟨fun t => some t, fun _ => some rdapOvhFr, fun _ => some rdapOvhFr⟩

/-- A reverse-DNS oracle whose every lookup raises. -/
def rdnsNone : Str → Option Str := fun _ => none

/-- A unix `traceroute` output with a duplicated RFC1918 hop, used against
claim C6. -/
def exampleTracerouteOut : String :=
  " 1  10.0.0.1 (10.0.0.1)  1.0 ms\n 2  10.0.0.1 (10.0.0.1)  2.0 ms\n 3  * * *"

/-- A pipeline environment whose DNS answers are all failures and whose
other oracles are inert, for the empty-resolution scenario of claim C4. -/
def envC4 : PipelineEnv :=
  { dnsA := none, dnsAAAA := none, dnsNS := none, dnsDuration := 0,
    whoisAnswer := some (some "REG".data, PyExpiration.dt (some 100)),
    ipWhois := fun _ => (some "13335".data, some "Cloudflare".data, some "US".data),
    geo := geoEnvNone, mtrHops := [],
    httpGet := some (200, some "nginx".data),
    tlsConn := some (some "May 30 00:00:00 2023 GMT".data),
    strptime := fun _ => some 1685404800 }

/-- A pipeline environment that resolves to one Cloudflare address with a
CDN-classified WHOIS answer, used as the witness scenario of claim C8. -/
def envC8 : PipelineEnv :=
  { dnsA := some ["104.16.132.229".data], dnsAAAA := none, dnsNS := none,
    dnsDuration := 0,
    whoisAnswer := none,
    ipWhois := fun _ => (some "13335".data, some "Cloudflare, Inc.".data, some "US".data),
    geo := geoEnvNone, mtrHops := [],
    httpGet := none, tlsConn := none, strptime := fun _ => none }

/-- A concrete `DomainInfo` with no domain expiration and a TLS
expiration, for the C10 witness. -/
def infoC10 : DomainInfo :=
  { domain := "example.com".data, tls_expiration := some 5 }

/-- Two concrete `DomainInfo` values with distinct domains for the C7
witness; the first carries a `dns`-stage error. -/
def infoC7a : DomainInfo :=
  { domain := "a.example".data, error := [("dns", "The DNS query name does not exist")] }

/-- Companion value for the C7 witness, error-free. -/
def infoC7b : DomainInfo :=
  { domain := "b.example".data }

/-- A reverse-DNS oracle that resolves `8.8.8.8` and fails elsewhere, for
the C6 witness. -/
def rdnsGoogle : Str → Option Str :=
  fun ip => if ip = "8.8.8.8".data then some "DNS.Google".data else none

/-- An empty metrics state. -/
def emptyMetrics : MetricsState :=
  { domain_info := fun _ => none, http_status := fun _ => none,
    dns_resolve_duration := fun _ => none, domain_expiration := fun _ => none,
    tls_expiration := fun _ => none, scrape_duration := none,
    scrape_error := fun _ => none }

end Douro

namespace Douro

/-! ### Helper lemmas -/

/-- The geolocation path always fails: `IPWhois` is unbound in the module. -/
theorem geo_always_none (env : GeoEnv) (target : Str) :
    detect_via_ip_geolocation env target = (none, none) := by
  unfold detect_via_ip_geolocation
  cases _is_ip_address target <;> cases env.gethostbyname target <;> rfl

theorem startsWithL_nil (s : Str) : startsWithL s [] = true := rfl

theorem startsWithL_append_self (p t : Str) : startsWithL (p ++ t) p = true := by
  induction p with
  | nil => rfl
  | cons c p ih => simp [startsWithL, startsWithAux] at ih ⊢; exact ih

theorem startsWithL_ex {s p : Str} (h : startsWithL s p = true) : ∃ t, s = p ++ t := by
  induction p generalizing s with
  | nil => exact ⟨s, rfl⟩
  | cons c p ih =>
    cases s with
    | nil => simp [startsWithL, startsWithAux] at h
    | cons a s' =>
      simp only [startsWithL, startsWithAux, Bool.and_eq_true, beq_iff_eq] at h
      obtain ⟨rfl, h2⟩ := h
      obtain ⟨t, rfl⟩ := ih h2
      exact ⟨t, rfl⟩

theorem analyze_ip_ranges_singleton (s : Str) :
    _analyze_ip_ranges [s] =
      match analyzeIpRangesOne s with
      | some r => r
      | none => (none, none) := by
  unfold _analyze_ip_ranges List.findSome?
  cases analyzeIpRangesOne s <;> rfl

end Douro

namespace Douro

/-! ### Claim C3 -/

/-- C3: for every target, `RegionDetector.detect_via_ip_geolocation`
returns `(None, None)` — the module never imports or defines `IPWhois`, so
the lookup raises `NameError` and the catch-all handler converts it to
`(None, None)`; consequently the E1 evidence source never contributes to
`detect_hosting_region` (its result does not depend on the geolocation
environment at all). -/
theorem c3_e1_always_none :
    (∀ (env : GeoEnv) (target : Str),
      detect_via_ip_geolocation env target = (none, none))
    ∧ (∀ (env : GeoEnv) (mtrHops : List Str) (target : Str),
      detect_hosting_region env mtrHops target
        = detect_hosting_region geoEnvNone mtrHops target) := by
  refine ⟨geo_always_none, fun env mtrHops target => ?_⟩
  unfold detect_hosting_region
  rw [geo_always_none, geo_always_none]

/-! ### Claim C2 -/

/-- C2 (code bug): with the mocked WHOIS answer ASN 16276 / OVH / FR for
`54.39.17.7`, the spec expects `("ovh", "gra7")` via E1 and no traceroute.
The intended refinement logic (still present but dead in
`detect_via_ip_geolocation`) would indeed produce `("ovh", "gra7")`, but
the function aborts with `NameError` on the unbound `IPWhois` and returns
`(None, None)`, so the engine falls through to the traceroute rules and,
with no usable hops, returns `(None, None, [])`. -/
theorem c2_ovh_gra7_eval :
    detect_via_ip_geolocation geoEnvOvh "54.39.17.7".data = (none, none)
    ∧ geoLogicAfterLookup "54.39.17.7".data rdapOvhFr = (some "ovh", some "gra7")
    ∧ detect_hosting_region geoEnvOvh [] "54.39.17.7".data = (none, none, []) :=
  ⟨by decide, by decide, by decide⟩

/-! ### Claim C9 -/

/-- C9: in `check_https`, when the HTTP GET succeeds but the TLS
connection or the certificate-date parsing fails, the function returns
`(0, None, None)`, discarding the observed status code and Server
header — the two probes are sequentially dependent. -/
theorem c9_https_sequential (httpGet : Option (Int × Option Str))
    (tlsConn : Option (Option Str)) (strptime : Str → Option Int)
    (st : Int) (sv : Option Str) (h1 : httpGet = some (st, sv))
    (h2 : tlsConn = none ∨ ∃ na, tlsConn = some (some na) ∧ strptime na = none) :
    check_https httpGet tlsConn strptime = (0, none, none) := by
  subst h1
  rcases h2 with h | ⟨na, h, hp⟩ <;> subst h
  · rfl
  · simp only [check_https]
    rw [hp]

/-- Witness for C9 at a concrete successful GET and a failed TLS
connection. -/
theorem c9_witness :
    check_https (some (200, some "nginx".data)) none (fun _ => none)
      = (0, none, none) :=
  c9_https_sequential _ _ _ 200 (some "nginx".data) rfl (Or.inl rfl)

end Douro

namespace Douro

/-! ### Claim C10 -/

/-- C10: `update_metrics` writes the two expiration gauges for a domain
only when the corresponding field is present; when it is `None` the gauge
family is left untouched, so a value set during an earlier scrape remains
exposed unchanged. -/
theorem c10_expiration_gauges_frame (s : MetricsState) (d : DomainInfo) (elapsed : Rat) :
    (d.expiration_date = none →
      (update_metrics s [d] elapsed).domain_expiration = s.domain_expiration)
    ∧ (∀ t, d.expiration_date = some t →
      (update_metrics s [d] elapsed).domain_expiration
        = setG s.domain_expiration d.domain t)
    ∧ (d.tls_expiration = none →
      (update_metrics s [d] elapsed).tls_expiration = s.tls_expiration)
    ∧ (∀ t, d.tls_expiration = some t →
      (update_metrics s [d] elapsed).tls_expiration
        = setG s.tls_expiration d.domain t) := by
  refine ⟨fun h => ?_, fun t h => ?_, fun h => ?_, fun t h => ?_⟩ <;>
    simp only [update_metrics, List.foldl, updateInfoMetrics] <;> rw [h]

/-- Witness for C10: a `DomainInfo` with no domain expiration leaves that
gauge untouched while its TLS expiration is written. -/
theorem c10_witness :
    (update_metrics emptyMetrics [infoC10] 0).domain_expiration
        = emptyMetrics.domain_expiration
    ∧ (update_metrics emptyMetrics [infoC10] 0).tls_expiration
        = setG emptyMetrics.tls_expiration infoC10.domain 5 :=
  ⟨(c10_expiration_gauges_frame emptyMetrics infoC10 0).1 rfl,
   (c10_expiration_gauges_frame emptyMetrics infoC10 0).2.2.2 5 rfl⟩

/-! ### Claim C1 -/

/-- C1 (counterexample): at the target `104.16.0.1` with no usable hops,
the fusion policy exactly as the claim states it yields `(None, None, [])`
(no provider emerged from E1 or E3), while `detect_hosting_region` returns
`("cloudflare", None, [])` — the provider that emerged from E2 on the
target, which the claim's rule 5 does not return. -/
theorem c1_counterexample :
    specFusionC1 geoEnvNone [] "104.16.0.1".data
      ≠ detect_hosting_region geoEnvNone [] "104.16.0.1".data := by
  decide

/-- C1 (amended): `detect_hosting_region` applies the claim's rules 1-4
verbatim, but in rule 5 the provider-only fallback returns the E2 provider
from the target first and the E1 provider second, and a provider that
emerged only from E3 is discarded; rules 1 and 2 return with an empty hop
list, never consulting the traceroute. -/
theorem c1_fusion_amended (env : GeoEnv) (mtrHops : List Str) (target : Str) :
    detect_hosting_region env mtrHops target = amendedFusionC1 env mtrHops target := by
  unfold detect_hosting_region amendedFusionC1 detect_provider_and_region
  cases mtrHops with
  | nil => rfl
  | cons h t =>
    cases hm : hopPatternMatch (h :: t) with
    | some pr => simp [hm]
    | none =>
      rcases hih : _analyze_ip_ranges (h :: t) with ⟨ihp, ihr⟩
      cases ihp <;> cases ihr <;> simp [hm, hih]

end Douro

namespace Douro

/-! ### Claim C4 -/

/-- C4 (counterexample): a domain whose DNS resolution yields no IP
addresses (all three resolver queries fail) produces a `DomainInfo` whose
error map is empty — no `dns` entry is recorded, because `resolve_dns`
swallows every resolver failure and never raises. -/
theorem c4_counterexample :
    (analyze_domain envC4 "invalid.tld".data).ip_addresses = []
    ∧ (analyze_domain envC4 "invalid.tld".data).error = [] :=
  ⟨by decide, by decide⟩

/-- C4 (amended): when DNS resolution yields no IP addresses,
`analyze_domain` returns immediately after the DNS stage with an empty
error map (no stage entry at all, `dns` included), every downstream field
at its default and `http_status = 0`; the result is exactly the DNS-stage
record, so the WHOIS-domain, WHOIS-IP, region-detection and HTTPS oracles
are never consulted. -/
theorem c4_empty_dns_early_return (env : PipelineEnv) (dom : Str)
    (h : (resolve_dns env.dnsA env.dnsAAAA env.dnsNS env.dnsDuration).2.1 = []) :
    analyze_domain env dom =
      { domain := dom,
        dns_resolve_duration :=
          (resolve_dns env.dnsA env.dnsAAAA env.dnsNS env.dnsDuration).1,
        ns_records :=
          (resolve_dns env.dnsA env.dnsAAAA env.dnsNS env.dnsDuration).2.2 } := by
  simp only [analyze_domain]
  rw [h]

/-- Witness for C4 at the concrete all-failing resolver environment. -/
theorem c4_witness :
    analyze_domain envC4 "invalid.tld".data =
      { domain := "invalid.tld".data,
        dns_resolve_duration :=
          (resolve_dns envC4.dnsA envC4.dnsAAAA envC4.dnsNS envC4.dnsDuration).1,
        ns_records :=
          (resolve_dns envC4.dnsA envC4.dnsAAAA envC4.dnsNS envC4.dnsDuration).2.2 } :=
  c4_empty_dns_early_return envC4 "invalid.tld".data rfl

/-! ### Claim C8 -/

/-- C8: `cdn_detected` in a pipeline result always equals `is_cdn_ip` on
the result's own ASN fields; those fields are the WHOIS answer for the
first resolved IP; `is_cdn_ip` is true only when the ASN equals a
known-CDN ASN or the organization contains a CDN indicator token, and it
is false whenever either argument is absent. -/
theorem c8_cdn_detection :
    (∀ (env : PipelineEnv) (dom : Str),
      (analyze_domain env dom).cdn_detected
        = is_cdn_ip (analyze_domain env dom).asn (analyze_domain env dom).asn_org)
    ∧ (∀ (env : PipelineEnv) (dom : Str) (ip : Str),
      (analyze_domain env dom).ip_addresses.head? = some ip →
      (analyze_domain env dom).asn = (env.ipWhois ip).1
        ∧ (analyze_domain env dom).asn_org = (env.ipWhois ip).2.1)
    ∧ (∀ asn org, is_cdn_ip asn org = true →
      ∃ a o, asn = some a ∧ org = some o
        ∧ (cdn_asns.any (fun x => a = x.data) = true
           ∨ cdn_keywords.any (fun k => occursIn k.data (pyLower o)) = true))
    ∧ (∀ org, is_cdn_ip none org = false)
    ∧ (∀ asn, is_cdn_ip asn none = false) := by
  refine ⟨fun env dom => ?_, fun env dom ip hip => ?_, fun asn org h => ?_,
    fun org => ?_, fun asn => ?_⟩
  · simp only [analyze_domain]
    cases (resolve_dns env.dnsA env.dnsAAAA env.dnsNS env.dnsDuration).2.1 <;> rfl
  · simp only [analyze_domain] at hip ⊢
    cases hr : (resolve_dns env.dnsA env.dnsAAAA env.dnsNS env.dnsDuration).2.1 with
    | nil =>
      rw [hr] at hip
      exact Option.noConfusion hip
    | cons a rest =>
      rw [hr] at hip
      obtain rfl : a = ip := Option.some.inj hip
      exact ⟨rfl, rfl⟩
  · cases asn with
    | none => simp [is_cdn_ip, pyFalsyStr] at h
    | some a =>
      cases org with
      | none => simp [is_cdn_ip, pyFalsyStr] at h
      | some o =>
        refine ⟨a, o, rfl, rfl, ?_⟩
        unfold is_cdn_ip at h
        split at h
        · cases h
        · by_cases hk : (cdn_keywords.any fun k => occursIn k.data (pyLower o)) = true
          · exact Or.inr hk
          · left
            simp only [Option.getD] at h
            rw [if_neg hk] at h
            exact h
  · rfl
  · simp [is_cdn_ip, pyFalsyStr]

/-- Witness for C8 at the Cloudflare scenario: the ASN fields come from
the WHOIS answer for the first IP, and the CDN predicate is justified by a
keyword or ASN hit. -/
theorem c8_witness :
    ((analyze_domain envC8 "cloudflare.com".data).asn
        = (envC8.ipWhois "104.16.132.229".data).1
      ∧ (analyze_domain envC8 "cloudflare.com".data).asn_org
        = (envC8.ipWhois "104.16.132.229".data).2.1)
    ∧ (∃ a o, (some "13335".data : Option Str) = some a
        ∧ (some "Cloudflare, Inc.".data : Option Str) = some o
        ∧ (cdn_asns.any (fun x => a = x.data) = true
           ∨ cdn_keywords.any (fun k => occursIn k.data (pyLower o)) = true)) :=
  ⟨c8_cdn_detection.2.1 envC8 "cloudflare.com".data "104.16.132.229".data (by decide),
   c8_cdn_detection.2.2.1 (some "13335".data) (some "Cloudflare, Inc.".data) (by decide)⟩

/-! ### Claim C7 -/

theorem scrape_error_foldl_set (g : Str × String → Option Nat) (dom : Str)
    (e : List (String × String)) (st : String) (hst : st ∈ stageNames) :
    (stageNames.foldl
        (fun g stage => setG g (dom, stage) (if errHasKey e stage then 1 else 0)) g)
      (dom, st)
      = some (if errHasKey e st then 1 else 0) := by
  fin_cases hst <;> simp [stageNames, setG]

theorem scrape_error_foldl_other (g : Str × String → Option Nat) (dom : Str)
    (e : List (String × String)) (q : Str × String) (hq : q.1 ≠ dom) :
    (stageNames.foldl
        (fun g stage => setG g (dom, stage) (if errHasKey e stage then 1 else 0)) g) q
      = g q := by
  obtain ⟨q1, q2⟩ := q
  simp only [ne_eq] at hq
  simp [stageNames, setG, Prod.ext_iff, hq]

theorem foldl_update_preserve (L : List DomainInfo) (s : MetricsState)
    (q : Str × String) (hX : ∀ i ∈ L, i.domain ≠ q.1) :
    (L.foldl updateInfoMetrics s).scrape_error q = s.scrape_error q := by
  induction L generalizing s with
  | nil => rfl
  | cons i t ih =>
    rw [List.foldl_cons, ih _ (fun j hj => hX j (List.mem_cons_of_mem i hj))]
    exact scrape_error_foldl_other s.scrape_error i.domain i.error q
      (fun h => hX i (List.mem_cons_self i t) h.symm)

/-- C7: after `update_metrics` runs on a list of per-domain results (one
per domain), the gauge `douro_scrape_error{domain,stage}` is exactly 1
when that domain's error map contains the stage key and exactly 0
otherwise, for each of the five stage names — in particular it is always
0 or 1. -/
theorem c7_scrape_error_gauge (s0 : MetricsState) (L : List DomainInfo)
    (elapsed : Rat) (hnd : (L.map (fun i => i.domain)).Nodup)
    (d : DomainInfo) (hd : d ∈ L) (st : String) (hst : st ∈ stageNames) :
    (update_metrics s0 L elapsed).scrape_error (d.domain, st)
      = some (if errHasKey d.error st then 1 else 0) := by
  show (L.foldl updateInfoMetrics s0).scrape_error (d.domain, st) = _
  induction L generalizing s0 with
  | nil => cases hd
  | cons i t ih =>
    rw [List.foldl_cons]
    rw [List.map_cons, List.nodup_cons] at hnd
    rcases List.mem_cons.mp hd with rfl | hdt
    · have hpre : ∀ j ∈ t, j.domain ≠ (d.domain, st).1 := by
        intro j hj he
        have he' : j.domain = d.domain := he
        exact hnd.1 (he' ▸ List.mem_map_of_mem (fun i => i.domain) hj)
      rw [foldl_update_preserve t _ _ hpre]
      exact scrape_error_foldl_set s0.scrape_error d.domain d.error st hst
    · exact ih (updateInfoMetrics s0 i) hnd.2 hdt

/-- Witness for C7 on a two-domain scrape: the erroring domain's `dns`
gauge is 1. -/
theorem c7_witness :
    (update_metrics emptyMetrics [infoC7a, infoC7b] 0).scrape_error
        (infoC7a.domain, "dns")
      = some (if errHasKey infoC7a.error "dns" then 1 else 0) :=
  c7_scrape_error_gauge emptyMetrics [infoC7a, infoC7b] 0 (by decide)
    infoC7a (List.mem_cons_self infoC7a [infoC7b]) "dns" (by decide)

/-! ### Claim C5 -/

theorem cloudflareV6Result_fst (s : Str) :
    (cloudflareV6Result s).1 = some "cloudflare" := by
  unfold cloudflareV6Result
  repeat' split
  all_goals rfl

theorem akamaiHostResult_fst (s : Str) :
    (akamaiHostResult s).1 = some "akamai" := by
  unfold akamaiHostResult
  repeat' split
  all_goals rfl

theorem cf_v6_provider (s : Str) (h : startsWithL s "2606:4700".data = true) :
    (_analyze_ip_ranges [s]).1 = some "cloudflare" := by
  rw [analyze_ip_ranges_singleton]
  unfold analyzeIpRangesOne
  rw [h]
  simp only [if_true]
  exact cloudflareV6Result_fst s

theorem cf_v6_euro (s : Str) (h : startsWithL s "2606:4700".data = true)
    (h10 : occursIn "2606:4700:10::".data s = true) (n : Nat)
    (hx : pyHexParse (lastColonGroup s) = some n) :
    _analyze_ip_ranges [s] = (some "cloudflare",
      some (if 0x1400 ≤ n ∧ n ≤ 0x14ff then "cdg"
        else if 0x1500 ≤ n ∧ n ≤ 0x15ff then "ams"
        else if 0x1600 ≤ n ∧ n ≤ 0x16ff then "lhr" else "cdg")) := by
  rw [analyze_ip_ranges_singleton]
  unfold analyzeIpRangesOne cloudflareV6Result
  rw [h, h10]
  simp only [if_true]
  split
  next m hm => rw [hx] at hm; cases hm; split_ifs <;> rfl
  next hm => rw [hx] at hm; cases hm

theorem cf_v6_us (s : Str) (h : startsWithL s "2606:4700".data = true)
    (h10 : occursIn "2606:4700:10::".data s = false)
    (h68 : occursIn "2606:4700::68".data s = true) (n : Nat)
    (hx : pyHexParse (lastColonGroup s) = some n) :
    _analyze_ip_ranges [s] = (some "cloudflare",
      some (if 0x8500 ≤ n ∧ n ≤ 0x85ff then "iad"
        else if 0x8600 ≤ n ∧ n ≤ 0x86ff then "lax" else "iad")) := by
  rw [analyze_ip_ranges_singleton]
  unfold analyzeIpRangesOne cloudflareV6Result
  rw [h, h10, h68]
  simp only [if_true, Bool.false_eq_true, if_false]
  split
  next m hm => rw [hx] at hm; cases hm; split_ifs <;> rfl
  next hm => rw [hx] at hm; cases hm

theorem cf_v4_104 (b c d : Nat) (hb : 16 ≤ b) (hb' : b ≤ 31) :
    _analyze_ip_ranges [renderIPv4 104 b c d] = (some "cloudflare", none) := by
  rw [analyze_ip_ranges_singleton]
  unfold analyzeIpRangesOne renderIPv4
  interval_cases b <;> rfl

theorem cf_v4_172 (b c d : Nat) (hb : 64 ≤ b) (hb' : b ≤ 67) :
    _analyze_ip_ranges [renderIPv4 172 b c d] = (some "cloudflare", none) := by
  rw [analyze_ip_ranges_singleton]
  unfold analyzeIpRangesOne renderIPv4
  interval_cases b <;> rfl

theorem akamai_host (s : Str)
    (h2606 : startsWithL s "2606:4700".data = false)
    (hcf4 : cloudflareV4Starts.any (fun p => startsWithL s p.data) = false)
    (hm : occursIn "akamaitechnologies.com".data s = true
      ∨ occursIn "akamaiedge.net".data s = true) :
    analyzeIpRangesOne s = some (akamaiHostResult s) := by
  unfold analyzeIpRangesOne
  rw [h2606, hcf4]
  rcases hm with hA | hB
  · rw [hA]; simp
  · rw [hB]; simp

theorem akamai_v6 (s : Str) (h : startsWithL s "2a02:26f0:".data = true)
    (hA : occursIn "akamaitechnologies.com".data s = false)
    (hB : occursIn "akamaiedge.net".data s = false) :
    _analyze_ip_ranges [s] = (some "akamai",
      if occursIn "2a02:26f0:2b80:".data s then some "ams" else none) := by
  rw [analyze_ip_ranges_singleton]
  obtain ⟨t, rfl⟩ := startsWithL_ex h
  unfold analyzeIpRangesOne
  rw [hA, hB]
  have h2606 : startsWithL ("2a02:26f0:".data ++ t) "2606:4700".data = false := rfl
  have hcf4 :
      (cloudflareV4Starts.any fun p =>
        startsWithL ("2a02:26f0:".data ++ t) p.data) = false := rfl
  rw [h2606, hcf4, startsWithL_append_self]
  simp

/-- C5 (counterexample): `172.68.0.1` lies in `172.64.0.0/13` but the
IP-range heuristic does not classify it at all — the source's prefix list
stops at `172.67.`. -/
theorem c5_counterexample :
    specIn172_64_13 172 68 0 1
    ∧ _analyze_ip_ranges [renderIPv4 172 68 0 1] = (none, none) :=
  ⟨⟨rfl, by decide, by decide, by decide, by decide⟩, by decide⟩

/-- C5 (amended): the IP-range heuristic classifies every string in the
`2606:4700::/32` textual block as Cloudflare, mapping the last 16-bit
group of the `2606:4700:10::` sub-block to `cdg`/`ams`/`lhr` (default
`cdg`) and of the `2606:4700::68` sub-block to `iad`/`lax` (default
`iad`); every IPv4 address of `104.16.0.0/12` and of `172.64.0.0/14`
(not `/13`) as Cloudflare with no region; hostnames containing
`akamaitechnologies.com` or `akamaiedge.net` as Akamai, with the leftmost
dot-delimited three-letter token as the region when it is a known IATA
code; and `2a02:26f0:` strings as Akamai with `ams` exactly on the
`2a02:26f0:2b80::/48` sub-prefix. -/
theorem c5_ip_ranges_amended :
    (∀ s, startsWithL s "2606:4700".data = true →
      (_analyze_ip_ranges [s]).1 = some "cloudflare")
    ∧ (∀ s n, startsWithL s "2606:4700".data = true →
        occursIn "2606:4700:10::".data s = true →
        pyHexParse (lastColonGroup s) = some n →
        _analyze_ip_ranges [s] = (some "cloudflare",
          some (if 0x1400 ≤ n ∧ n ≤ 0x14ff then "cdg"
            else if 0x1500 ≤ n ∧ n ≤ 0x15ff then "ams"
            else if 0x1600 ≤ n ∧ n ≤ 0x16ff then "lhr" else "cdg")))
    ∧ (∀ s n, startsWithL s "2606:4700".data = true →
        occursIn "2606:4700:10::".data s = false →
        occursIn "2606:4700::68".data s = true →
        pyHexParse (lastColonGroup s) = some n →
        _analyze_ip_ranges [s] = (some "cloudflare",
          some (if 0x8500 ≤ n ∧ n ≤ 0x85ff then "iad"
            else if 0x8600 ≤ n ∧ n ≤ 0x86ff then "lax" else "iad")))
    ∧ (∀ a b c d, specIn104_16_12 a b c d →
        _analyze_ip_ranges [renderIPv4 a b c d] = (some "cloudflare", none))
    ∧ (∀ a b c d, specIn172_64_14 a b c d →
        _analyze_ip_ranges [renderIPv4 a b c d] = (some "cloudflare", none))
    ∧ (∀ s, startsWithL s "2606:4700".data = false →
        (cloudflareV4Starts.any fun p => startsWithL s p.data) = false →
        (occursIn "akamaitechnologies.com".data s = true
          ∨ occursIn "akamaiedge.net".data s = true) →
        ((_analyze_ip_ranges [s]).1 = some "akamai"
          ∧ ∀ tok, firstAkamaiToken s = some tok →
              akamaiKnownCodes.contains (String.mk tok) = true →
              _analyze_ip_ranges [s] = (some "akamai", some (String.mk tok))))
    ∧ (∀ s, startsWithL s "2a02:26f0:".data = true →
        occursIn "akamaitechnologies.com".data s = false →
        occursIn "akamaiedge.net".data s = false →
        _analyze_ip_ranges [s] = (some "akamai",
          if occursIn "2a02:26f0:2b80:".data s then some "ams" else none)) := by
  refine ⟨cf_v6_provider, fun s n h h10 hx => cf_v6_euro s h h10 n hx,
    fun s n h h10 h68 hx => cf_v6_us s h h10 h68 n hx,
    fun a b c d hin => ?_, fun a b c d hin => ?_,
    fun s h1 h2 hm => ?_, akamai_v6⟩
  · obtain ⟨rfl, hb, hb', -, -⟩ := hin
    exact cf_v4_104 b c d hb hb'
  · obtain ⟨rfl, hb, hb', -, -⟩ := hin
    exact cf_v4_172 b c d hb hb'
  · have key := akamai_host s h1 h2 hm
    refine ⟨?_, fun tok htok hmem => ?_⟩
    · rw [analyze_ip_ranges_singleton, key]
      exact akamaiHostResult_fst s
    · rw [analyze_ip_ranges_singleton, key]
      show akamaiHostResult s = _
      unfold akamaiHostResult
      rw [htok]
      simp [hmem]
      simpa using hmem

/-- Witness for C5 at concrete addresses of each family. -/
theorem c5_witness :
    (_analyze_ip_ranges ["2606:4700:3037::ac43:a209".data]).1 = some "cloudflare"
    ∧ _analyze_ip_ranges ["2606:4700:10::6816:1505".data] = (some "cloudflare",
        some (if 0x1400 ≤ 0x1505 ∧ (0x1505 : Nat) ≤ 0x14ff then "cdg"
          else if 0x1500 ≤ 0x1505 ∧ (0x1505 : Nat) ≤ 0x15ff then "ams"
          else if 0x1600 ≤ 0x1505 ∧ (0x1505 : Nat) ≤ 0x16ff then "lhr" else "cdg"))
    ∧ _analyze_ip_ranges [renderIPv4 104 16 132 229] = (some "cloudflare", none)
    ∧ _analyze_ip_ranges [renderIPv4 172 65 2 3] = (some "cloudflare", none)
    ∧ _analyze_ip_ranges ["a104.cdg2.deploy.akamaitechnologies.com".data]
        = (some "akamai", some (String.mk "cdg".data))
    ∧ _analyze_ip_ranges ["2a02:26f0:2b80::1".data] = (some "akamai",
        if occursIn "2a02:26f0:2b80:".data "2a02:26f0:2b80::1".data
        then some "ams" else none) :=
  ⟨c5_ip_ranges_amended.1 "2606:4700:3037::ac43:a209".data (by decide),
   c5_ip_ranges_amended.2.1 "2606:4700:10::6816:1505".data 0x1505 (by decide)
     (by decide) (by decide),
   c5_ip_ranges_amended.2.2.2.1 104 16 132 229
     ⟨rfl, by decide, by decide, by decide, by decide⟩,
   c5_ip_ranges_amended.2.2.2.2.1 172 65 2 3
     ⟨rfl, by decide, by decide, by decide, by decide⟩,
   (c5_ip_ranges_amended.2.2.2.2.2.1 "a104.cdg2.deploy.akamaitechnologies.com".data
       (by decide) (by decide) (Or.inl (by decide))).2
     "cdg".data (by decide) (by decide),
   c5_ip_ranges_amended.2.2.2.2.2.2 "2a02:26f0:2b80::1".data (by decide) (by decide)
     (by decide)⟩

/-! ### Claim C6 -/

theorem dedupFirst_not_mem_seen (l : List Str) :
    ∀ seen x, x ∈ dedupFirst seen l → x ∉ seen := by
  induction l with
  | nil => intro seen x h; cases h
  | cons h t ih =>
    intro seen x hx
    simp only [dedupFirst] at hx
    by_cases hmem : h ∈ seen
    · rw [if_pos hmem] at hx
      exact ih seen x hx
    · rw [if_neg hmem] at hx
      rcases List.mem_cons.mp hx with rfl | hx'
      · exact hmem
      · intro hxs
        exact ih (h :: seen) x hx' (List.mem_cons_of_mem h hxs)

theorem dedupFirst_nodup (l : List Str) : ∀ seen, (dedupFirst seen l).Nodup := by
  induction l with
  | nil => intro _; exact List.nodup_nil
  | cons h t ih =>
    intro seen
    simp only [dedupFirst]
    by_cases hmem : h ∈ seen
    · rw [if_pos hmem]; exact ih seen
    · rw [if_neg hmem]
      refine List.nodup_cons.mpr ⟨fun hmem2 => ?_, ih (h :: seen)⟩
      exact dedupFirst_not_mem_seen t (h :: seen) h hmem2 (List.mem_cons_self h seen)

theorem dedupFirst_sublist (l : List Str) : ∀ seen, (dedupFirst seen l).Sublist l := by
  induction l with
  | nil => intro _; exact List.Sublist.refl []
  | cons h t ih =>
    intro seen
    simp only [dedupFirst]
    by_cases hmem : h ∈ seen
    · rw [if_pos hmem]
      exact List.sublist_cons_of_sublist h (ih seen)
    · rw [if_neg hmem]
      exact List.Sublist.cons₂ h (ih (h :: seen))

theorem processMtrTok_drop (rdns : Str → Option Str) (t : Str)
    (h : (mtrDropTokens.any fun d => t = d.data) = true) :
    processMtrTok rdns t = none := by
  unfold processMtrTok
  rw [if_pos h]

theorem processMtrTok_private (rdns : Str → Option Str) (t : Str)
    (h : (privateStarts.any fun p => startsWithL t p.data) = true) :
    processMtrTok rdns t = none := by
  unfold processMtrTok
  by_cases hd : (mtrDropTokens.any fun d => t = d.data) = true
  · rw [if_pos hd]
  · rw [if_neg hd, if_pos h]

theorem processMtrTok_ip_kept (rdns : Str → Option Str) (t : Str)
    (h1 : (mtrDropTokens.any fun d => t = d.data) = false)
    (h2 : (privateStarts.any fun p => startsWithL t p.data) = false)
    (h3 : _is_ip_address t = true) (h4 : rdns t = none) :
    processMtrTok rdns t = some t := by
  unfold processMtrTok
  simp [h1, h2, h3, h4]

theorem processMtrTok_ptr (rdns : Str → Option Str) (t n : Str)
    (h1 : (mtrDropTokens.any fun d => t = d.data) = false)
    (h2 : (privateStarts.any fun p => startsWithL t p.data) = false)
    (h3 : _is_ip_address t = true) (h4 : rdns t = some n)
    (h5 : occursIn ".".data n = true) (h6 : n.length > 5) :
    processMtrTok rdns t = some (pyLower n) := by
  unfold processMtrTok
  simp [h1, h2, h3, h4, h5, h6]

/-- C6 (counterexample): when `mtr` is unavailable and the driver falls
back to unix `traceroute`, the parsed hop list keeps a duplicated RFC1918
address — neither the private-range filter nor the deduplication of the
claim applies on that path. -/
theorem c6_counterexample :
    run_mtr rdnsNone CmdOutcome.missing CmdOutcome.missing
        (CmdOutcome.ok exampleTracerouteOut.data) CmdOutcome.missing
      = ["10.0.0.1".data, "10.0.0.1".data]
    ∧ startsWithL "10.0.0.1".data "10.".data = true
    ∧ ¬ (["10.0.0.1".data, "10.0.0.1".data] : List Str).Nodup :=
  ⟨by decide, by decide, by decide⟩

/-- C6 (amended): the mtr parser's hop list is duplicate-free in
first-seen order (a sublist of the raw extraction order); its per-token
processing drops the timeout/wildcard tokens and the RFC1918/`bbox.lan`
prefixes, keeps an IP when reverse DNS raises, and substitutes the
lowercased PTR name when it has a dot and more than 5 characters.  The
unix-traceroute fallback parser applies none of this: on the driver's
fallback path a duplicated private address passes through (concrete
evaluation). -/
theorem c6_hop_parsing_amended :
    (∀ (rdns : Str → Option Str) (out : Str),
      (_parse_mtr_output_enhanced rdns out).Nodup)
    ∧ (∀ (rdns : Str → Option Str) (out : Str),
      (_parse_mtr_output_enhanced rdns out).Sublist (mtrRawHops rdns out))
    ∧ (∀ (rdns : Str → Option Str) (t : Str),
      (mtrDropTokens.any fun d => t = d.data) = true → processMtrTok rdns t = none)
    ∧ (∀ (rdns : Str → Option Str) (t : Str),
      (privateStarts.any fun p => startsWithL t p.data) = true →
        processMtrTok rdns t = none)
    ∧ (∀ (rdns : Str → Option Str) (t : Str),
      (mtrDropTokens.any fun d => t = d.data) = false →
      (privateStarts.any fun p => startsWithL t p.data) = false →
      _is_ip_address t = true → rdns t = none → processMtrTok rdns t = some t)
    ∧ (∀ (rdns : Str → Option Str) (t n : Str),
      (mtrDropTokens.any fun d => t = d.data) = false →
      (privateStarts.any fun p => startsWithL t p.data) = false →
      _is_ip_address t = true → rdns t = some n →
      occursIn ".".data n = true → n.length > 5 →
        processMtrTok rdns t = some (pyLower n))
    ∧ _parse_traceroute_unix exampleTracerouteOut.data
        = ["10.0.0.1".data, "10.0.0.1".data] :=
  ⟨fun rdns out => dedupFirst_nodup (mtrRawHops rdns out) [],
   fun rdns out => dedupFirst_sublist (mtrRawHops rdns out) [],
   processMtrTok_drop, processMtrTok_private, processMtrTok_ip_kept,
   processMtrTok_ptr, by decide⟩

/-- Witness for C6: each hypothesis-bearing conjunct applied at a concrete
token. -/
theorem c6_witness :
    (_parse_mtr_output_enhanced rdnsNone "  1.|-- a.example (1.2.3.4)\n".data).Nodup
    ∧ (_parse_mtr_output_enhanced rdnsNone "  1.|-- a.example (1.2.3.4)\n".data).Sublist
        (mtrRawHops rdnsNone "  1.|-- a.example (1.2.3.4)\n".data)
    ∧ processMtrTok rdnsNone "???".data = none
    ∧ processMtrTok rdnsNone "192.168.1.254".data = none
    ∧ processMtrTok rdnsNone "62.34.2.1".data = some "62.34.2.1".data
    ∧ processMtrTok rdnsGoogle "8.8.8.8".data = some (pyLower "DNS.Google".data) :=
  ⟨c6_hop_parsing_amended.1 rdnsNone "  1.|-- a.example (1.2.3.4)\n".data,
   c6_hop_parsing_amended.2.1 rdnsNone "  1.|-- a.example (1.2.3.4)\n".data,
   c6_hop_parsing_amended.2.2.1 rdnsNone "???".data (by decide),
   c6_hop_parsing_amended.2.2.2.1 rdnsNone "192.168.1.254".data (by decide),
   c6_hop_parsing_amended.2.2.2.2.1 rdnsNone "62.34.2.1".data (by decide) (by decide)
     (by decide) rfl,
   c6_hop_parsing_amended.2.2.2.2.2.1 rdnsGoogle "8.8.8.8".data "DNS.Google".data
     (by decide) (by decide) (by decide) (by decide) (by decide) (by decide)⟩
